import Mathlib

set_option autoImplicit false
set_option maxHeartbeats 1000000

namespace Fs

/-- An opaque identifier standing for one `func(fsnotify.Event)` callback
closure (the `changer` closure built per ReadDirectory request in
src/fs/fs.go). Two distinct requests produce two distinct closures, so we
model a closure by a natural-number identity. -/
abbrev Callback := Nat

namespace AList

/-- Go map read `m[k]`: the value at the first binding of `k`, if any.
Reading a nil map is represented by looking up in an absent entry
(`Option.none` at the outer level), which in Go yields the zero value. -/
def lookup {α : Type} (k : String) : List (String × α) → Option α
  | [] => none
  | (k', v) :: t => if k' = k then some v else lookup k t

/-- Go map write `m[k] = v` on a non-nil map: replaces the first binding of
`k` or appends a new binding. -/
def insert {α : Type} (k : String) (v : α) : List (String × α) → List (String × α)
  | [] => [(k, v)]
  | (k', v') :: t => if k' = k then (k, v) :: t else (k', v') :: insert k v t

/-- Go `delete(m, k)`: removes every binding of `k` (a Go map holds at most
one, and `delete` on an absent key is a no-op). -/
def erase {α : Type} (k : String) : List (String × α) → List (String × α)
  | [] => []
  | (k', v') :: t => if k' = k then erase k t else (k', v') :: erase k t

theorem lookup_insert {α : Type} (k : String) (v : α) (l : List (String × α)) :
    lookup k (insert k v l) = some v := by
  induction l with
  | nil => simp [insert, lookup]
  | cons h t ih =>
    obtain ⟨k', v'⟩ := h
    by_cases hk : k' = k
    · simp [insert, lookup, hk]
    · simp [insert, lookup, hk, ih]

theorem lookup_insert_ne {α : Type} (k₁ k : String) (v : α) (l : List (String × α))
    (h : k₁ ≠ k) : lookup k₁ (insert k v l) = lookup k₁ l := by
  induction l with
  | nil => simp [insert, lookup, Ne.symm h]
  | cons hd t ih =>
    obtain ⟨k', v'⟩ := hd
    by_cases hk : k' = k
    · subst hk
      simp [insert, lookup, Ne.symm h]
    · by_cases hk1 : k' = k₁
      · subst hk1
        simp [insert, lookup, hk, Ne.symm hk]
      · simp [insert, lookup, hk, hk1, ih]

theorem lookup_erase {α : Type} (k : String) (l : List (String × α)) :
    lookup k (erase k l) = none := by
  induction l with
  | nil => simp [erase, lookup]
  | cons hd t ih =>
    obtain ⟨k', v'⟩ := hd
    by_cases hk : k' = k
    · simp [erase, hk, ih]
    · simp [erase, lookup, hk, ih]

theorem lookup_erase_ne {α : Type} (k₁ k : String) (l : List (String × α))
    (h : k₁ ≠ k) : lookup k₁ (erase k l) = lookup k₁ l := by
  induction l with
  | nil => simp [erase]
  | cons hd t ih =>
    obtain ⟨k', v'⟩ := hd
    by_cases hk : k' = k
    · subst hk
      simp [erase, lookup, Ne.symm h, ih]
    · by_cases hk1 : k' = k₁
      · subst hk1
        simp [erase, lookup, hk]
      · simp [erase, lookup, hk, hk1, ih]

theorem erase_erase {α : Type} (k : String) (l : List (String × α)) :
    erase k (erase k l) = erase k l := by
  induction l with
  | nil => simp [erase]
  | cons hd t ih =>
    obtain ⟨k', v'⟩ := hd
    by_cases hk : k' = k
    · simp [erase, hk, ih]
    · simp [erase, hk, ih]

theorem insert_insert_self {α : Type} (k : String) (v : α) (l : List (String × α)) :
    insert k v (insert k v l) = insert k v l := by
  induction l with
  | nil => simp [insert]
  | cons hd t ih =>
    obtain ⟨k', v'⟩ := hd
    by_cases hk : k' = k
    · simp [insert, hk]
    · simp [insert, hk, ih]

theorem lookup_of_erase_nil {α : Type} (k₁ k : String) (l : List (String × α))
    (hne : k₁ ≠ k) (h : erase k l = []) : lookup k₁ l = none := by
  induction l with
  | nil => simp [lookup]
  | cons hd t ih =>
    obtain ⟨k', v'⟩ := hd
    by_cases hk : k' = k
    · subst hk
      simp only [erase, if_pos rfl] at h
      simp [lookup, Ne.symm hne, ih h]
    · simp [erase, hk] at h

end AList

/-- Helper for Go `path.Clean`: the `out.w--; for out.w > dotdot &&
out.index(out.w) != '/' \x7b out.w-- \x7d` loop, on the output buffer kept as a
reversed character list. `c` is the character most recently cut off the
buffer (`out.index(out.w)` after the decrement). -/
def cleanBacktrackLoop (dotdot : Nat) (c : Char) : List Char → List Char
  | [] => []
  | c' :: t => if dotdot < t.length + 1 ∧ c ≠ '/' then cleanBacktrackLoop dotdot c' t else c' :: t

/-- Go `path.Clean` backtrack branch entry: pop one character, then run the
shrink loop. Only reached when the buffer is longer than `dotdot`, hence
nonempty. -/
def cleanBacktrack (dotdot : Nat) : List Char → List Char
  | [] => []
  | c :: t => cleanBacktrackLoop dotdot c t

/-- Main loop of Go `path.Clean` over the remaining input characters, with
the output buffer held reversed (head = most recently appended character).
The fuel argument is initialised to the input length; every iteration
consumes at least one input character, so the fuel never runs out. -/
def cleanLoop (rooted : Bool) : Nat → List Char → List Char → Nat → List Char
  | 0, _, out, _ => out
  | _ + 1, [], out, _ => out
  | fuel + 1, c :: t, out, dotdot =>
    if c = '/' then
      cleanLoop rooted fuel t out dotdot
    else if c = '.' ∧ (t = [] ∨ t.head? = some '/') then
      cleanLoop rooted fuel t out dotdot
    else if c = '.' ∧ t.head? = some '.' ∧ (t.tail = [] ∨ t.tail.head? = some '/') then
      if dotdot < out.length then
        cleanLoop rooted fuel t.tail (cleanBacktrack dotdot out) dotdot
      else if ¬ rooted then
        let out' := if 0 < out.length then '.' :: '.' :: '/' :: out else ['.', '.']
        cleanLoop rooted fuel t.tail out' out'.length
      else
        cleanLoop rooted fuel t.tail out dotdot
    else
      let out' := if (rooted ∧ out.length ≠ 1) ∨ (¬ rooted ∧ out.length ≠ 0) then '/' :: out else out
      cleanLoop rooted fuel ((c :: t).dropWhile (fun x => x ≠ '/'))
        (((c :: t).takeWhile (fun x => x ≠ '/')).reverse ++ out') dotdot

/-- Go `path.Clean` (stdlib `path` package, used by fs.go via `path.Dir`):
lexical simplification of a slash-separated path. -/
def pathClean (p : String) : String :=
  if p = "" then "."
  else
    let l := p.data
    let rooted := l.head? = some '/'
    let out :=
      if rooted then cleanLoop rooted l.length l.tail ['/'] 1
      else cleanLoop rooted l.length l [] 0
    if out.length = 0 then "." else String.mk out.reverse

/-- The directory part of Go `path.Split`: everything up to and including
the final slash (empty when the path has no slash). -/
def pathSplitDir (p : String) : String :=
  String.mk (p.data.reverse.dropWhile (fun c => c ≠ '/')).reverse

/-- Go `path.Dir` (used at src/fs/fs.go:156 as `path.Dir(event.Name)`):
`Clean` of the directory part of `Split`. -/
def pathDir (p : String) : String :=
  pathClean (pathSplitDir p)

/-- Go `path.Base` (used at src/fs/fs.go:58 as `path.Base(ev.Name)`): the
last element of the path after stripping trailing slashes; "." for the empty
path, "/" for an all-slash path. -/
def pathBase (p : String) : String :=
  if p = "" then "."
  else
    let l := (p.data.reverse.dropWhile (fun c => c = '/')).reverse
    if l = [] then "/"
    else String.mk (l.reverse.takeWhile (fun c => c ≠ '/')).reverse

/-- Modelled from the spec: the `FileEntry` record is defined outside src/
(only fs.go is available); §6 gives its wire shape
`\x7bname, fullPath, isDir, size, mode, time, isBroken, readable, writable\x7d`.
Numeric and boolean fields default to Go zero values. -/
structure FileEntry where
  name : String
  fullPath : String
  isDir : Bool := false
  size : Nat := 0
  mode : Nat := 0
  time : Nat := 0
  isBroken : Bool := false
  readable : Bool := false
  writable : Bool := false
deriving DecidableEq, Repr

/-- Modelled from the spec: `NewFileEntry(name, path)` is defined outside
src/; per §4.C it builds "a synthetic directory entry carrying just the base
name and path", all other fields left at their zero values. -/
def NewFileEntry (name fullPath : String) : FileEntry :=
  { name := name, fullPath := fullPath }

/-- The operation of an fsnotify event, as matched by the `switch ev.Op`
at src/fs/fs.go:52 (fsnotify v1 ops: Create, Write, Remove, Rename, Chmod). -/
inductive FsnotifyOp where
  | create
  | write
  | remove
  | rename
  | chmod
deriving DecidableEq, Repr

/-- An fsnotify event: an operation and the affected path (`ev.Op`,
`ev.Name`). -/
structure FsEvent where
  op : FsnotifyOp
  name : String
deriving DecidableEq, Repr

/-- The closure state of one `changer` (src/fs/fs.go:48-49): the variables
`eventType string` and `fileEntry *FileEntry` are declared outside the
closure, so they persist across invocations of the same subscription's
callback. Initial values are the Go zero values "" and nil. -/
structure ChangerState where
  eventType : String
  fileEntry : Option FileEntry
deriving DecidableEq, Repr

/-- The initial changer closure state: `var eventType string; var fileEntry
*FileEntry` (zero values). -/
def ChangerState.init : ChangerState := ⟨"", none⟩

/-- The payload map built at src/fs/fs.go:61-64 and passed to
`params.OnChange.Call`. -/
structure ChangeEvent where
  event : String
  file : Option FileEntry
deriving DecidableEq, Repr

/-- The `changer` closure of src/fs/fs.go:51-69, one invocation: given the
`getInfo` environment (abstract result of the stat, nil on error since the
error is discarded at line 55), the persistent closure state and the event,
it returns the new closure state and the list of `OnChange.Call` payloads
made during the invocation. The switch updates the state only for
Create/Remove/Rename; the `Call` at line 67 is unconditional, so the list is
always a singleton. -/
def changer (getInfo : String → Option FileEntry) (st : ChangerState) (ev : FsEvent) :
    ChangerState × List ChangeEvent :=
  let st' :=
    match ev.op with
    | .create => ⟨"added", getInfo ev.name⟩
    | .remove => ⟨"removed", some (NewFileEntry (pathBase ev.name) ev.name)⟩
    | .rename => ⟨"removed", some (NewFileEntry (pathBase ev.name) ev.name)⟩
    | _ => st
  (st', [⟨st'.eventType, st'.fileEntry⟩])

/-- The inner map of `watchCallbacks`: username → callback closure
(src/fs/fs.go:23). -/
abbrev InnerMap := List (String × Callback)

/-- The `watchCallbacks` registry: path → (username → callback)
(src/fs/fs.go:23). -/
abbrev Registry := List (String × InnerMap)

/-- Outcome of the subscribe section of ReadDirectory (src/fs/fs.go:72-85).
`watchRequested` records whether `newPaths <- params.Path` was sent (the OS
layer was asked to start watching the path). `panicked` is the Go runtime
panic "assignment to entry in nil map": when the path is absent from
`watchCallbacks`, `userCallbacks` is the nil map and line 82 writes into it. -/
inductive SubscribeResult where
  | panicked (registry : Registry) (watchRequested : Bool)
  | ok (registry : Registry) (watchRequested : Bool)
deriving DecidableEq, Repr

/-- The subscribe section of ReadDirectory, src/fs/fs.go:72-85, under `mu`:
look up `watchCallbacks[params.Path]`; if absent, send the path to the
watcher (`newPaths <- params.Path`); then, if the user has no callback yet,
write the changer into the inner map and store the inner map back. Writing
into the nil inner map (the absent-path case — the inner map is never
allocated) panics before anything is inserted. -/
def subscribe (reg : Registry) (path user : String) (cb : Callback) : SubscribeResult :=
  let userCallbacks? := AList.lookup path reg
  let watchRequested := userCallbacks?.isNone
  match userCallbacks? with
  | none => .panicked reg watchRequested
  | some userCallbacks =>
    if (AList.lookup user userCallbacks).isSome then
      .ok reg watchRequested
    else
      .ok (AList.insert path (AList.insert user cb userCallbacks) reg) watchRequested

/-- The `removePath` closure of src/fs/fs.go:87-107, under `mu`: look up the
path; if present, delete the user's callback from the inner map (an in-place
mutation, so the registry's binding sees it); if the inner map became empty,
delete the path from the registry and notify the watcher (`oldPaths <-
params.Path`, the returned Bool). -/
def removePath (reg : Registry) (path user : String) : Registry × Bool :=
  match AList.lookup path reg with
  | none => (reg, false)
  | some userCallbacks =>
    let userCallbacks' := AList.erase user userCallbacks
    if userCallbacks'.length = 0 then
      (AList.erase path reg, true)
    else
      (AList.insert path userCallbacks' reg, false)

/-- The action registered on client disconnect at src/fs/fs.go:110
(`r.Client.OnDisconnect(removePath)`): it runs `removePath` for the
request's path and username. -/
def disconnectHookAction (path user : String) : Registry → Registry × Bool :=
  fun reg => removePath reg path user

/-- The action run by the `stopWatching` dnode callback returned to the
client at src/fs/fs.go:113-115: it runs `removePath` for the request's path
and username. -/
def stopWatchingAction (path user : String) : Registry → Registry × Bool :=
  fun reg => removePath reg path user

/-- The event-loop lookup of `startWatcher` (src/fs/fs.go:155-161): for an
incoming event, `f, ok := watchCallbacks[path.Dir(event.Name)]` under `mu`;
`none` makes the loop `continue`. The value found is the whole inner
user-to-callback map for the parent directory of the affected path. (The
source then executes `f(event)`, which calls the map value `f` as if it
were a single function — see the C3 analysis.) -/
def watcherLookup (reg : Registry) (evName : String) : Option InnerMap :=
  AList.lookup (pathDir evName) reg

/-- A subscription lookup: the callback registered in the registry for a
given (path, username), if any. -/
def subOf (reg : Registry) (path user : String) : Option Callback :=
  match AList.lookup path reg with
  | none => none
  | some userCallbacks => AList.lookup user userCallbacks

/-- The invocation of an underlying filesystem primitive by a handler (the
calls to `glob`, `readFile`, `writeFile`, `uniquePath`, `getInfo`,
`setPermissions`, `remove`, `rename`, `createDirectory`, `cp` in
src/fs/fs.go). A handler that returns a bad-arguments error never produces
one of these. -/
inductive PrimCall where
  | globCall (pattern : String)
  | readFileCall (path : String)
  | writeFileCall (path : String) (content : List Nat) (doNotOverwrite appendToFile : Bool)
  | uniquePathCall (path : String)
  | getInfoCall (path : String)
  | setPermissionsCall (path : String) (mode : Nat) (recursive : Bool)
  | removeCall (path : String) (recursive : Bool)
  | renameCall (oldPath newPath : String)
  | createDirectoryCall (path : String) (recursive : Bool)
  | copyCall (srcPath dstPath : String)
deriving DecidableEq, Repr

/-- Parameter record of Glob (src/fs/fs.go:173-175). -/
structure GlobParams where
  Pattern : String
deriving DecidableEq, Repr

/-- Parameter record of ReadFile, UniquePath and GetInfo
(src/fs/fs.go:185-187, 213-215, 225-227). -/
structure PathParams where
  Path : String
deriving DecidableEq, Repr

/-- The `writeFileParams` record (src/fs/fs.go:196-201). -/
structure writeFileParams where
  Path : String
  Content : List Nat
  DoNotOverwrite : Bool
  Append : Bool
deriving DecidableEq, Repr

/-- The `setPermissionsParams` record (src/fs/fs.go:236-240). -/
structure setPermissionsParams where
  Path : String
  Mode : Nat
  Recursive : Bool
deriving DecidableEq, Repr

/-- Parameter record of Remove and CreateDirectory (src/fs/fs.go:258-261,
293-296). -/
structure RemoveParams where
  Path : String
  Recursive : Bool
deriving DecidableEq, Repr

/-- Parameter record of Rename and Move (src/fs/fs.go:275-278, 311-314). -/
structure RenameParams where
  OldPath : String
  NewPath : String
deriving DecidableEq, Repr

/-- Parameter record of Copy (src/fs/fs.go:329-332). -/
structure CopyParams where
  SrcPath : String
  DstPath : String
deriving DecidableEq, Repr

/-- The Glob handler (src/fs/fs.go:172-182). `decoded` is the result of
`r.Args.One().Unmarshal(&params)`: `none` models an Unmarshal error. On
decode failure or empty Pattern the handler returns the schema message and
calls no primitive; otherwise it invokes `glob(params.Pattern)`. -/
def Glob (decoded : Option GlobParams) : Except String PrimCall :=
  match decoded with
  | none => .error "\x7b pattern: [string] \x7d"
  | some params =>
    if params.Pattern = "" then .error "\x7b pattern: [string] \x7d"
    else .ok (.globCall params.Pattern)

/-- The ReadFile handler (src/fs/fs.go:184-194). -/
def ReadFile (decoded : Option PathParams) : Except String PrimCall :=
  match decoded with
  | none => .error "\x7b path: [string] \x7d"
  | some params =>
    if params.Path = "" then .error "\x7b path: [string] \x7d"
    else .ok (.readFileCall params.Path)

/-- The WriteFile handler (src/fs/fs.go:203-210). -/
def WriteFile (decoded : Option writeFileParams) : Except String PrimCall :=
  match decoded with
  | none => .error "\x7b path: [string] \x7d"
  | some params =>
    if params.Path = "" then .error "\x7b path: [string] \x7d"
    else .ok (.writeFileCall params.Path params.Content params.DoNotOverwrite params.Append)

/-- The UniquePath handler (src/fs/fs.go:212-222). -/
def UniquePath (decoded : Option PathParams) : Except String PrimCall :=
  match decoded with
  | none => .error "\x7b path: [string] \x7d"
  | some params =>
    if params.Path = "" then .error "\x7b path: [string] \x7d"
    else .ok (.uniquePathCall params.Path)

/-- The GetInfo handler (src/fs/fs.go:224-234). -/
def GetInfo (decoded : Option PathParams) : Except String PrimCall :=
  match decoded with
  | none => .error "\x7b path: [string] \x7d"
  | some params =>
    if params.Path = "" then .error "\x7b path: [string] \x7d"
    else .ok (.getInfoCall params.Path)

/-- The SetPermissions handler (src/fs/fs.go:242-255). -/
def SetPermissions (decoded : Option setPermissionsParams) : Except String PrimCall :=
  match decoded with
  | none => .error "\x7b path: [string], mode: [integer], recursive: [bool] \x7d"
  | some params =>
    if params.Path = "" then .error "\x7b path: [string], mode: [integer], recursive: [bool] \x7d"
    else .ok (.setPermissionsCall params.Path params.Mode params.Recursive)

/-- The Remove handler (src/fs/fs.go:257-272). -/
def Remove (decoded : Option RemoveParams) : Except String PrimCall :=
  match decoded with
  | none => .error "\x7b path: [string], recursive: [bool] \x7d"
  | some params =>
    if params.Path = "" then .error "\x7b path: [string], recursive: [bool] \x7d"
    else .ok (.removeCall params.Path params.Recursive)

/-- The Rename handler (src/fs/fs.go:274-290). -/
def Rename (decoded : Option RenameParams) : Except String PrimCall :=
  match decoded with
  | none => .error "\x7b oldPath: [string], newPath: [string] \x7d"
  | some params =>
    if params.OldPath = "" ∨ params.NewPath = "" then
      .error "\x7b oldPath: [string], newPath: [string] \x7d"
    else .ok (.renameCall params.OldPath params.NewPath)

/-- The CreateDirectory handler (src/fs/fs.go:292-308). -/
def CreateDirectory (decoded : Option RemoveParams) : Except String PrimCall :=
  match decoded with
  | none => .error "\x7b path: [string], recursive: [bool] \x7d"
  | some params =>
    if params.Path = "" then .error "\x7b path: [string], recursive: [bool] \x7d"
    else .ok (.createDirectoryCall params.Path params.Recursive)

/-- The Move handler (src/fs/fs.go:310-326): same record and validation as
Rename, also invoking `rename`. -/
def Move (decoded : Option RenameParams) : Except String PrimCall :=
  match decoded with
  | none => .error "\x7b oldPath: [string], newPath: [string] \x7d"
  | some params =>
    if params.OldPath = "" ∨ params.NewPath = "" then
      .error "\x7b oldPath: [string], newPath: [string] \x7d"
    else .ok (.renameCall params.OldPath params.NewPath)

/-- The Copy handler (src/fs/fs.go:328-344). -/
def Copy (decoded : Option CopyParams) : Except String PrimCall :=
  match decoded with
  | none => .error "\x7b srcPath: [string], dstPath: [string] \x7d"
  | some params =>
    if params.SrcPath = "" ∨ params.DstPath = "" then
      .error "\x7b srcPath: [string], dstPath: [string] \x7d"
    else .ok (.copyCall params.SrcPath params.DstPath)

/-- Parameter record of ReadDirectory (src/fs/fs.go:28-31): the path, the
validity of the `onChange` dnode function (`params.OnChange.IsValid()`), and
the identity of the changer closure this request would register. -/
structure RDParams where
  Path : String
  onChangeValid : Bool
  cb : Callback
deriving DecidableEq, Repr

/-- Outcome of one ReadDirectory call (src/fs/fs.go:27-125) against a given
registry. `watchRequested` records whether `newPaths <- params.Path` was
sent; `hooked` whether `r.Client.OnDisconnect(removePath)` was registered;
`stopWatching` whether the response carries the `stopWatching` callback. -/
inductive RDOutcome where
  | badArgs (msg : String)
  | panicked (registry : Registry) (watchRequested : Bool)
  | readError (registry : Registry) (watchRequested : Bool) (hooked : Bool)
  | ok (registry : Registry) (watchRequested : Bool) (hooked : Bool)
      (stopWatching : Bool) (files : List FileEntry)
deriving DecidableEq, Repr

/-- The ReadDirectory handler (src/fs/fs.go:27-125). `argsPresent` models
`r.Args != nil`; `decoded` the Unmarshal of the first argument; `readDir`
the abstract result of `readDirectory(params.Path)` (defined outside src/).
With a valid onChange, the subscribe section runs (and may panic on the nil
inner map) and the disconnect hook and `stopWatching` callback are
registered before `readDirectory` is attempted; a listing error is returned
without undoing any of those effects. -/
def ReadDirectory (reg : Registry) (argsPresent : Bool) (decoded : Option RDParams)
    (username : String) (readDir : Except String (List FileEntry)) : RDOutcome :=
  if ¬ argsPresent then .badArgs "arguments are not passed"
  else
    match decoded with
    | none => .badArgs "\x7b path: [string], onChange: [function]\x7d"
    | some params =>
      if params.Path = "" then .badArgs "\x7b path: [string], onChange: [function]\x7d"
      else
        if params.onChangeValid then
          match subscribe reg params.Path username params.cb with
          | .panicked reg' wr => .panicked reg' wr
          | .ok reg' wr =>
            match readDir with
            | .error _ => .readError reg' wr true
            | .ok files => .ok reg' wr true true files
        else
          match readDir with
          | .error _ => .readError reg false false
          | .ok files => .ok reg false false false files

end Fs

/-- Claim C1: a ReadDirectory request with a change-callback for a path with
no prior subscribers should insert the (path, callerIdentity) subscription,
request the OS watch, and return normally with a stop handle. The code
instead panics: with the path absent from `watchCallbacks` the inner map
`userCallbacks` is the nil map (it is never allocated), the path is sent to
the watcher, and the write `userCallbacks[r.Username] = changer` at
src/fs/fs.go:82 is an assignment to an entry of a nil map, a Go runtime
panic. Nothing is inserted and no handle is returned, yet the OS watch was
requested. -/
theorem C1_fresh_subscribe_panics :
    Fs.ReadDirectory [] true (some ⟨"/var/x", true, 0⟩) "alice" (.ok []) =
      .panicked [] true := rfl

/-- Claim C2: a repeat subscribe for the same (path, callerIdentity) should
replace the stored callback. The code keeps the old callback: the guard at
src/fs/fs.go:80-84 assigns the new changer only when the username is NOT yet
present, contradicting the comment above it ("If it's already exists we just
override"). Here the registry holds callback 1 for ("/d", "alice"); a
repeat subscribe with callback 2 leaves callback 1 in place (and correctly
requests no second OS watch). -/
theorem C2_repeat_subscribe_keeps_old_callback :
    Fs.subscribe [("/d", [("alice", 1)])] "/d" "alice" 2 =
      .ok [("/d", [("alice", 1)])] false := rfl

/-- Claim C3: for an event on "/d/f" the multiplexer looks up the
subscriber set registered for the parent directory "/d" — this lookup part
is faithful to src/fs/fs.go:156 and shown here: the value found is the full
inner user-to-callback map. The invocation part of the claim fails in the
source: `f(event)` at line 163 calls the map value `f` (of type
`map[string]func(fsnotify.Event)`) as if it were a single function, which is
ill-typed, so the loop as written cannot deliver the event to each
subscriber's callback. -/
theorem C3_dispatch_lookup_targets_parent :
    Fs.watcherLookup [("/d", [("alice", 1), ("bob", 2)])] "/d/f" =
      some [("alice", 1), ("bob", 2)] := by decide

/-- Claim C4 counterexample: the claim says a write/modify event produces
no emission to the subscriber's callback, but the `Call` at src/fs/fs.go:67
is unconditional: a Write event on a fresh subscription still invokes the
callback (with payload event="" and file=nil, since the switch left the
closure variables at their zero values). -/
theorem C4_cex_write_event_still_calls_onchange :
    (Fs.changer (fun _ => none) Fs.ChangerState.init ⟨.write, "/d/f"⟩).2 ≠ [] := by
  decide

/-- Claim C4 amended: for an OS event whose operation is write/modify
(neither create, remove, nor rename), the subscriber's callback is
nevertheless invoked exactly once, with a stale payload: the event class
and file entry left over from the most recent create/remove/rename handled
by the same subscription (the empty string and nil when none has occurred);
the closure state is unchanged. -/
theorem C4_amended_write_emits_stale_payload :
    ∀ (gi : String → Option Fs.FileEntry) (st : Fs.ChangerState) (ev : Fs.FsEvent),
      ev.op = .write ∨ ev.op = .chmod →
      Fs.changer gi st ev = (st, [⟨st.eventType, st.fileEntry⟩]) := by
  intro gi st ev h
  rcases h with h | h <;> simp [Fs.changer, h]

/-- Claim C4 amended, witness: a concrete Write event on the initial
closure state invokes the callback with the stale (zero-valued) payload. -/
theorem C4_amended_witness :
    Fs.changer (fun _ => none) Fs.ChangerState.init ⟨.write, "/d/f"⟩ =
      (Fs.ChangerState.init,
       [⟨Fs.ChangerState.init.eventType, Fs.ChangerState.init.fileEntry⟩]) :=
  C4_amended_write_emits_stale_payload (fun _ => none) Fs.ChangerState.init
    ⟨.write, "/d/f"⟩ (Or.inl rfl)

/-- Claim C5: for every delivered change event, a create produces event
class "added" with the current get-info entry of the affected path as the
file field, and a remove or rename produces event class "removed" with a
synthetic directory entry carrying only the base name and the path
(src/fs/fs.go:52-59). -/
theorem C5_event_classes_and_payloads :
    ∀ (gi : String → Option Fs.FileEntry) (st : Fs.ChangerState) (ev : Fs.FsEvent),
      (ev.op = .create →
        Fs.changer gi st ev = (⟨"added", gi ev.name⟩, [⟨"added", gi ev.name⟩])) ∧
      (ev.op = .remove ∨ ev.op = .rename →
        Fs.changer gi st ev =
          (⟨"removed", some (Fs.NewFileEntry (Fs.pathBase ev.name) ev.name)⟩,
           [⟨"removed", some (Fs.NewFileEntry (Fs.pathBase ev.name) ev.name)⟩])) := by
  intro gi st ev
  constructor
  · intro h
    simp [Fs.changer, h]
  · intro h
    rcases h with h | h <;> simp [Fs.changer, h]

/-- Claim C5 witness: a concrete create event and a concrete remove event,
with both hypotheses discharged. -/
theorem C5_witness :
    Fs.changer (fun _ => some (Fs.NewFileEntry "f" "/d/f")) Fs.ChangerState.init
        ⟨.create, "/d/f"⟩ =
      (⟨"added", some (Fs.NewFileEntry "f" "/d/f")⟩,
       [⟨"added", some (Fs.NewFileEntry "f" "/d/f")⟩]) ∧
    Fs.changer (fun _ => none) Fs.ChangerState.init ⟨.remove, "/d/f"⟩ =
      (⟨"removed", some (Fs.NewFileEntry (Fs.pathBase "/d/f") "/d/f")⟩,
       [⟨"removed", some (Fs.NewFileEntry (Fs.pathBase "/d/f") "/d/f")⟩]) :=
  ⟨(C5_event_classes_and_payloads (fun _ => some (Fs.NewFileEntry "f" "/d/f"))
      Fs.ChangerState.init ⟨.create, "/d/f"⟩).1 rfl,
   (C5_event_classes_and_payloads (fun _ => none)
      Fs.ChangerState.init ⟨.remove, "/d/f"⟩).2 (Or.inl rfl)⟩

/-- Claim C6: the claim (and §5 of the spec) requires that a path appears in
the registry iff its OS watch is active, the registry entry being added only
after the OS add succeeds. The code violates this: `newPaths <- params.Path`
is sent before the registry is touched, the `watcher.Add` error is only
logged (src/fs/fs.go:138-141) and never reported back, and the subsequent
nil-map write panics, so after a fresh subscribe the OS layer has been asked
to watch the path while the registry still lacks it. -/
theorem C6_watch_requested_but_path_not_in_registry :
    Fs.subscribe [] "/d" "alice" 0 = .panicked [] true ∧
    Fs.AList.lookup "/d" ([] : Fs.Registry) = none := ⟨rfl, rfl⟩

/-- Claim C7: teardown is idempotent — running `removePath` a second time
for the same (path, callerIdentity) returns the registry unchanged and does
not notify the watcher again — and the disconnect hook (src/fs/fs.go:110)
and the `stopWatching` callback (src/fs/fs.go:113-115) are the same teardown
routine. -/
theorem C7_teardown_idempotent_and_shared :
    ∀ (reg : Fs.Registry) (p u : String),
      Fs.removePath (Fs.removePath reg p u).1 p u = ((Fs.removePath reg p u).1, false) ∧
      Fs.disconnectHookAction p u = Fs.stopWatchingAction p u := by
  intro reg p u
  refine ⟨?_, rfl⟩
  cases h : Fs.AList.lookup p reg with
  | none => simp [Fs.removePath, h]
  | some uc =>
    by_cases hlen : (Fs.AList.erase u uc).length = 0
    · simp [Fs.removePath, h, hlen, Fs.AList.lookup_erase]
    · simp [Fs.removePath, h, hlen, Fs.AList.lookup_insert, Fs.AList.erase_erase,
        Fs.AList.insert_insert_self]

/-- Claim C8: every handler, on decode failure of the first positional
argument (`Unmarshal` returning an error, modelled as `none`) or on an
empty required field (path / pattern / oldPath / newPath), returns the
bad-arguments error enumerating its expected parameter schema and invokes
no filesystem primitive (the `Except.error` result carries no `PrimCall`;
for ReadDirectory the `badArgs` outcome precedes both the watch section and
the listing). -/
theorem C8_bad_arguments_schema :
    (∀ d : Option Fs.GlobParams,
      (d = none ∨ ∃ p, d = some p ∧ p.Pattern = "") →
      Fs.Glob d = .error "\x7b pattern: [string] \x7d") ∧
    (∀ d : Option Fs.PathParams,
      (d = none ∨ ∃ p, d = some p ∧ p.Path = "") →
      Fs.ReadFile d = .error "\x7b path: [string] \x7d") ∧
    (∀ d : Option Fs.writeFileParams,
      (d = none ∨ ∃ p, d = some p ∧ p.Path = "") →
      Fs.WriteFile d = .error "\x7b path: [string] \x7d") ∧
    (∀ d : Option Fs.PathParams,
      (d = none ∨ ∃ p, d = some p ∧ p.Path = "") →
      Fs.UniquePath d = .error "\x7b path: [string] \x7d") ∧
    (∀ d : Option Fs.PathParams,
      (d = none ∨ ∃ p, d = some p ∧ p.Path = "") →
      Fs.GetInfo d = .error "\x7b path: [string] \x7d") ∧
    (∀ d : Option Fs.setPermissionsParams,
      (d = none ∨ ∃ p, d = some p ∧ p.Path = "") →
      Fs.SetPermissions d = .error "\x7b path: [string], mode: [integer], recursive: [bool] \x7d") ∧
    (∀ d : Option Fs.RemoveParams,
      (d = none ∨ ∃ p, d = some p ∧ p.Path = "") →
      Fs.Remove d = .error "\x7b path: [string], recursive: [bool] \x7d") ∧
    (∀ d : Option Fs.RenameParams,
      (d = none ∨ ∃ p, d = some p ∧ (p.OldPath = "" ∨ p.NewPath = "")) →
      Fs.Rename d = .error "\x7b oldPath: [string], newPath: [string] \x7d") ∧
    (∀ d : Option Fs.RemoveParams,
      (d = none ∨ ∃ p, d = some p ∧ p.Path = "") →
      Fs.CreateDirectory d = .error "\x7b path: [string], recursive: [bool] \x7d") ∧
    (∀ d : Option Fs.RenameParams,
      (d = none ∨ ∃ p, d = some p ∧ (p.OldPath = "" ∨ p.NewPath = "")) →
      Fs.Move d = .error "\x7b oldPath: [string], newPath: [string] \x7d") ∧
    (∀ d : Option Fs.CopyParams,
      (d = none ∨ ∃ p, d = some p ∧ (p.SrcPath = "" ∨ p.DstPath = "")) →
      Fs.Copy d = .error "\x7b srcPath: [string], dstPath: [string] \x7d") ∧
    (∀ (reg : Fs.Registry) (u : String) (rd : Except String (List Fs.FileEntry))
        (d : Option Fs.RDParams),
      (d = none ∨ ∃ p, d = some p ∧ p.Path = "") →
      Fs.ReadDirectory reg true d u rd =
        .badArgs "\x7b path: [string], onChange: [function]\x7d") := by
  refine ⟨?_, ?_, ?_, ?_, ?_, ?_, ?_, ?_, ?_, ?_, ?_, ?_⟩
  · rintro d (rfl | ⟨p, rfl, hp⟩)
    · rfl
    · simp [Fs.Glob, hp]
  · rintro d (rfl | ⟨p, rfl, hp⟩)
    · rfl
    · simp [Fs.ReadFile, hp]
  · rintro d (rfl | ⟨p, rfl, hp⟩)
    · rfl
    · simp [Fs.WriteFile, hp]
  · rintro d (rfl | ⟨p, rfl, hp⟩)
    · rfl
    · simp [Fs.UniquePath, hp]
  · rintro d (rfl | ⟨p, rfl, hp⟩)
    · rfl
    · simp [Fs.GetInfo, hp]
  · rintro d (rfl | ⟨p, rfl, hp⟩)
    · rfl
    · simp [Fs.SetPermissions, hp]
  · rintro d (rfl | ⟨p, rfl, hp⟩)
    · rfl
    · simp [Fs.Remove, hp]
  · rintro d (rfl | ⟨p, rfl, hp⟩)
    · rfl
    · simp [Fs.Rename, hp]
  · rintro d (rfl | ⟨p, rfl, hp⟩)
    · rfl
    · simp [Fs.CreateDirectory, hp]
  · rintro d (rfl | ⟨p, rfl, hp⟩)
    · rfl
    · simp [Fs.Move, hp]
  · rintro d (rfl | ⟨p, rfl, hp⟩)
    · rfl
    · simp [Fs.Copy, hp]
  · rintro reg u rd d (rfl | ⟨p, rfl, hp⟩)
    · rfl
    · simp [Fs.ReadDirectory, hp]

/-- Claim C8 witness: each handler applied at a failed decode (and
ReadDirectory at a failed decode with a concrete registry, caller and
listing), with every hypothesis discharged. -/
theorem C8_witness :
    Fs.Glob none = .error "\x7b pattern: [string] \x7d" ∧
    Fs.ReadFile none = .error "\x7b path: [string] \x7d" ∧
    Fs.WriteFile none = .error "\x7b path: [string] \x7d" ∧
    Fs.UniquePath none = .error "\x7b path: [string] \x7d" ∧
    Fs.GetInfo none = .error "\x7b path: [string] \x7d" ∧
    Fs.SetPermissions none = .error "\x7b path: [string], mode: [integer], recursive: [bool] \x7d" ∧
    Fs.Remove none = .error "\x7b path: [string], recursive: [bool] \x7d" ∧
    Fs.Rename none = .error "\x7b oldPath: [string], newPath: [string] \x7d" ∧
    Fs.CreateDirectory none = .error "\x7b path: [string], recursive: [bool] \x7d" ∧
    Fs.Move none = .error "\x7b oldPath: [string], newPath: [string] \x7d" ∧
    Fs.Copy none = .error "\x7b srcPath: [string], dstPath: [string] \x7d" ∧
    Fs.ReadDirectory [] true none "alice" (.ok []) =
      .badArgs "\x7b path: [string], onChange: [function]\x7d" :=
  ⟨C8_bad_arguments_schema.1 none (Or.inl rfl),
   C8_bad_arguments_schema.2.1 none (Or.inl rfl),
   C8_bad_arguments_schema.2.2.1 none (Or.inl rfl),
   C8_bad_arguments_schema.2.2.2.1 none (Or.inl rfl),
   C8_bad_arguments_schema.2.2.2.2.1 none (Or.inl rfl),
   C8_bad_arguments_schema.2.2.2.2.2.1 none (Or.inl rfl),
   C8_bad_arguments_schema.2.2.2.2.2.2.1 none (Or.inl rfl),
   C8_bad_arguments_schema.2.2.2.2.2.2.2.1 none (Or.inl rfl),
   C8_bad_arguments_schema.2.2.2.2.2.2.2.2.1 none (Or.inl rfl),
   C8_bad_arguments_schema.2.2.2.2.2.2.2.2.2.1 none (Or.inl rfl),
   C8_bad_arguments_schema.2.2.2.2.2.2.2.2.2.2.1 none (Or.inl rfl),
   C8_bad_arguments_schema.2.2.2.2.2.2.2.2.2.2.2 [] "alice" (.ok []) none (Or.inl rfl)⟩

/-- Claim C9 counterexample: the claim says ReadDirectory with a
change-callback registers the subscription and the disconnect hook before
attempting the listing, and returns the listing error with the subscription
still registered. On a path with no prior subscribers the handler instead
panics in the subscribe section (nil inner map) before the listing is
attempted: nothing is registered and the listing error is never returned. -/
theorem C9_cex_fresh_path_panics_before_listing :
    Fs.ReadDirectory [] true (some ⟨"/d", true, 7⟩) "alice" (.error "boom") =
      .panicked [] true := rfl

/-- Claim C9 amended: when the watch registry already contains the path,
ReadDirectory with a change-callback registers the subscription and the
disconnect hook before attempting the directory listing; if the listing
fails, the handler returns the error and the subscription remains in the
registry (the watch side effects are not rolled back). When the path is
absent, the handler panics on the nil inner map before the listing (see the
counterexample and C1). -/
theorem C9_amended_listing_error_keeps_subscription :
    ∀ (reg : Fs.Registry) (uc : Fs.InnerMap) (p u : String) (cb : Fs.Callback) (err : String),
      p ≠ "" →
      Fs.AList.lookup p reg = some uc →
      ∃ reg', Fs.ReadDirectory reg true (some ⟨p, true, cb⟩) u (.error err) =
          .readError reg' false true ∧ (Fs.subOf reg' p u).isSome := by
  intro reg uc p u cb err hne hlook
  by_cases hu : (Fs.AList.lookup u uc).isSome
  · refine ⟨reg, ?_, ?_⟩
    · simp [Fs.ReadDirectory, hne, Fs.subscribe, hlook, hu]
    · simp [Fs.subOf, hlook, hu]
  · refine ⟨Fs.AList.insert p (Fs.AList.insert u cb uc) reg, ?_, ?_⟩
    · simp [Fs.ReadDirectory, hne, Fs.subscribe, hlook, hu]
    · simp [Fs.subOf, Fs.AList.lookup_insert]

/-- Claim C9 amended, witness: a registry already watching "/d" for
"alice"; "bob" subscribes and the listing fails; the error outcome keeps
bob's subscription registered. -/
theorem C9_amended_witness :
    ∃ reg', Fs.ReadDirectory [("/d", [("alice", 1)])] true (some ⟨"/d", true, 2⟩)
        "bob" (.error "boom") = .readError reg' false true ∧
      (Fs.subOf reg' "/d" "bob").isSome :=
  C9_amended_listing_error_keeps_subscription [("/d", [("alice", 1)])]
    [("alice", 1)] "/d" "bob" 2 "boom" (by decide) rfl

/-- Claim C10: teardown of (path, callerIdentity) is frame-preserving —
every other caller's subscription on the same path and every subscription
on every other path is unchanged by `removePath` — and the path is removed
from the registry only when its subscriber set becomes empty (otherwise the
path stays bound to the inner map minus the removed caller). -/
theorem C10_teardown_frame :
    ∀ (reg : Fs.Registry) (p u : String),
      (∀ p' u', ¬ (p' = p ∧ u' = u) →
        Fs.subOf (Fs.removePath reg p u).1 p' u' = Fs.subOf reg p' u') ∧
      (∀ uc, Fs.AList.lookup p reg = some uc → Fs.AList.erase u uc ≠ [] →
        Fs.AList.lookup p (Fs.removePath reg p u).1 = some (Fs.AList.erase u uc)) := by
  intro reg p u
  constructor
  · intro p' u' hne
    cases h : Fs.AList.lookup p reg with
    | none => simp [Fs.removePath, h]
    | some uc =>
      by_cases hlen : (Fs.AList.erase u uc).length = 0
      · by_cases hp : p' = p
        · subst hp
          have hu : u' ≠ u := fun hu => hne ⟨rfl, hu⟩
          have hemp : Fs.AList.erase u uc = [] := List.length_eq_zero.mp hlen
          simp [Fs.removePath, h, hlen, Fs.subOf, Fs.AList.lookup_erase,
            Fs.AList.lookup_of_erase_nil u' u uc hu hemp]
        · simp [Fs.removePath, h, hlen, Fs.subOf, Fs.AList.lookup_erase_ne p' p reg hp]
      · by_cases hp : p' = p
        · subst hp
          have hu : u' ≠ u := fun hu => hne ⟨rfl, hu⟩
          simp [Fs.removePath, h, hlen, Fs.subOf, Fs.AList.lookup_insert,
            Fs.AList.lookup_erase_ne u' u uc hu]
        · simp [Fs.removePath, h, hlen, Fs.subOf,
            Fs.AList.lookup_insert_ne p' p _ reg hp]
  · intro uc h hne
    have hlen : ¬ (Fs.AList.erase u uc).length = 0 := by
      intro h0
      exact hne (List.length_eq_zero.mp h0)
    simp [Fs.removePath, h, hlen, Fs.AList.lookup_insert]

/-- Claim C10 witness: removing alice's subscription on "/d" leaves carol's
subscription on "/e" untouched and keeps "/d" in the registry bound to the
remaining subscriber bob. -/
theorem C10_witness :
    Fs.subOf (Fs.removePath [("/d", [("alice", 1), ("bob", 2)]), ("/e", [("carol", 3)])]
        "/d" "alice").1 "/e" "carol" =
      Fs.subOf [("/d", [("alice", 1), ("bob", 2)]), ("/e", [("carol", 3)])] "/e" "carol" ∧
    Fs.AList.lookup "/d"
        (Fs.removePath [("/d", [("alice", 1), ("bob", 2)]), ("/e", [("carol", 3)])]
          "/d" "alice").1 =
      some (Fs.AList.erase "alice" [("alice", 1), ("bob", 2)]) :=
  ⟨(C10_teardown_frame [("/d", [("alice", 1), ("bob", 2)]), ("/e", [("carol", 3)])]
      "/d" "alice").1 "/e" "carol" (by decide),
   (C10_teardown_frame [("/d", [("alice", 1), ("bob", 2)]), ("/e", [("carol", 3)])]
      "/d" "alice").2 [("alice", 1), ("bob", 2)] rfl (by decide)⟩
